import Mathlib

/-!
Verification of the TEM-upload orchestration module (ioSPI/tem_upload.py).

The module talks to a remote node store over HTTP.  We embed it shallowly:
the remote service and the local filesystem are an explicit environment
(`Env`), HTTP responses are plain records, and every observable side effect
(node-creation POST, file open/close, file PUT) is recorded in an event
trace returned next to the result.  Fallible operations return
`Except PyError`, mirroring the Python exceptions (`HTTPError` from
`raise_for_status`, `ConnectionError` from an unreachable host, `KeyError`
from dict subscripts, `OSError` from `open`).
-/

set_option autoImplicit false
set_option linter.unusedVariables false

/-- An HTTP response as seen by `raise_for_status`: status code and body. -/
structure HttpResponse where
  status : Nat
  body : String
  deriving Repr, DecidableEq

/-- Errors raised by the embedded code, mirroring the Python exception types. -/
inductive PyError where
  | httpError (status : Nat) (body : String)
  | connectionError
  | keyError (key : String)
  | osError (path : String)
  deriving Repr, DecidableEq

/-- requests.Response.raise_for_status: raises HTTPError exactly when the
status code lies in the client-error range [400, 500) or the server-error
range [500, 600); the raised error carries the status and the response body. -/
def raise_for_status (resp : HttpResponse) : Except PyError Unit :=
  if 400 ≤ resp.status ∧ resp.status < 500 then
    Except.error (PyError.httpError resp.status resp.body)
  else if 500 ≤ resp.status ∧ resp.status < 600 then
    Except.error (PyError.httpError resp.status resp.body)
  else
    Except.ok ()

/-- A Python `dict[str, str]` as its ordered list of key/value items. -/
abbrev PyDict : Type := List (String × String)

/-- Python dict lookup `d[k]` on the item list: first (and, because keys are
kept unique by `dictInsert`, only) item whose key equals `k`. -/
def pyLookup (d : PyDict) (k : String) : Option String :=
  (List.find? (fun p => p.1 = k) d).map Prod.snd

/-- Python dict insertion `d[k] = v`: overwrite the value in place when the
key is present, otherwise append the new item at the end.  This is exactly
the dict-comprehension semantics (insertion order, last write wins). -/
def dictInsert (d : PyDict) (k v : String) : PyDict :=
  if List.any d (fun p => p.1 = k) then
    List.map (fun p => if p.1 = k then (k, v) else p) d
  else
    d ++ [(k, v)]

/-- One child node as it appears in the list-children response JSON:
child["attributes"]["title"] and child["id"]. -/
structure Child where
  title : String
  id : String
  deriving Repr, DecidableEq

/-- The dict comprehension of get_existing_molecules, line 168:
`{child["attributes"]["title"]: child["id"] for child in children}`. -/
def buildMoleculeDict (children : List Child) : PyDict :=
  List.foldl (fun d c => dictInsert d c.title c.id) [] children

/-- The attribute object sent in the node-creation request body:
title, fixed category "data", fixed public visibility, optional tags. -/
structure NodeAttributes where
  title : String
  category : String
  public : Bool
  tags : Option (List String)
  deriving Repr, DecidableEq

/-- The attributes post_child_node builds for a given title and tags. -/
def node_attributes (title : String) (tags : Option (List String)) : NodeAttributes :=
  { title := title, category := "data", public := true, tags := tags }

/-- The remote service's answer to a node-creation POST: HTTP status, raw
body, and the parsed body path response.json()["data"]["id"]. -/
structure CreateResp where
  status : Nat
  body : String
  dataId : String
  deriving Repr, DecidableEq

/-- Observable side effects of the module: a node-creation POST, a file
open, a file close, and a file-upload PUT. -/
inductive Event where
  | createNode (parent_guid : String) (attrs : NodeAttributes)
  | fopen (path : String)
  | fclose (path : String)
  | putFile (path : String)
  deriving Repr, DecidableEq

/-- True exactly on file-close events. -/
def Event.isClose : Event → Bool
  | Event.fclose _ => true
  | _ => false

/-- The environment: how the remote service and the local filesystem answer
each request the module can make.  Deterministic, so runs are pure. -/
structure Env where
  /-- Whether the liveness GET to the base url reaches the service. -/
  livenessReachable : Bool
  /-- Status of the liveness GET. -/
  livenessStatus : Nat
  /-- Body of the liveness GET response. -/
  livenessBody : String
  /-- Status of the GET listing the root node's children. -/
  listStatus : Nat
  /-- Body of the list-children response. -/
  listBody : String
  /-- Parsed response.json()["data"] of the list-children response. -/
  listChildren : List Child
  /-- Answer to a node-creation POST under a parent with given attributes. -/
  createResp : String → NodeAttributes → CreateResp
  /-- Whether open(path, "rb") succeeds for a local path. -/
  openOk : String → Bool
  /-- Status of the file-upload PUT for a local path. -/
  putStatus : String → Nat

/-- The session state set up by TEMUpload.__init__: the token (carried in
the Authorization header) and the configured root data node GUID. -/
structure Session where
  token : String
  data_node_guid : String
  deriving Repr, DecidableEq

/-- TEMUpload.__init__, lines 33-40: build the auth headers, issue a
liveness GET to the base url and call raise_for_status on it; only when
that does not raise is the session (with its data_node_guid) established.
An unreachable service makes requests.get itself raise ConnectionError. -/
def TEMUpload.init (env : Env) (token : String)
    (data_node_guid : String := "24htr") : Except PyError Session :=
  if env.livenessReachable then
    match raise_for_status { status := env.livenessStatus, body := env.livenessBody } with
    | Except.error e => Except.error e
    | Except.ok _ => Except.ok { token := token, data_node_guid := data_node_guid }
  else
    Except.error PyError.connectionError

/-- get_existing_molecules, lines 150-172: GET the root node's children,
raise_for_status, then build the title-to-GUID dict by comprehension. -/
def get_existing_molecules (env : Env) (s : Session) : Except PyError PyDict :=
  match raise_for_status { status := env.listStatus, body := env.listBody } with
  | Except.error e => Except.error e
  | Except.ok _ => Except.ok (buildMoleculeDict env.listChildren)

/-- post_child_node, lines 110-148: build the request body (title, category
"data", public, tags only when given), POST it, raise_for_status, and on
success return response.json()["data"]["id"].  The POST is recorded in the
trace whether or not the status check then raises. -/
def post_child_node (env : Env) (s : Session) (parent_guid : String)
    (title : String) (tags : Option (List String) := none) :
    Except PyError String × List Event :=
  let attrs := node_attributes title tags
  let resp := env.createResp parent_guid attrs
  match raise_for_status { status := resp.status, body := resp.body } with
  | Except.error e => (Except.error e, [Event.createNode parent_guid attrs])
  | Except.ok _ => (Except.ok resp.dataId, [Event.createNode parent_guid attrs])

/-- get_molecule_guid, lines 67-91: list the existing molecule nodes; when
the label is not a key of that dict, create a child of the data node with
that label (no tags) and return the new GUID; otherwise return the GUID the
dict maps the label to, issuing no creation call. -/
def get_molecule_guid (env : Env) (s : Session) (molecule_label : String) :
    Except PyError String × List Event :=
  match get_existing_molecules env s with
  | Except.error e => (Except.error e, [])
  | Except.ok existing_molecules =>
    if (pyLookup existing_molecules molecule_label).isNone then
      post_child_node env s s.data_node_guid molecule_label
    else
      match pyLookup existing_molecules molecule_label with
      | some guid => (Except.ok guid, [])
      | none => (Except.error (PyError.keyError molecule_label), [])

/-- The TEMSimulator record, as the module reads it: path_dict and
output_path_dict are str-to-str dicts, sim_dict is a dict whose ordered
values become the tags. -/
structure TEMSimulator where
  path_dict : PyDict
  sim_dict : List (String × String)
  output_path_dict : PyDict

/-- generate_tags_from_tem, lines 93-108: list(tem_wrapper.sim_dict.values()),
i.e. the values of the sim-parameter dict in its insertion order. -/
def generate_tags_from_tem (tem_wrapper : TEMSimulator) : List String :=
  List.map Prod.snd tem_wrapper.sim_dict

/-- One loop iteration trace of post_files on fully openable input:
an open followed by a PUT for each path, in order. -/
def open_put_trace : List String → List Event
  | [] => []
  | p :: rest => Event.fopen p :: Event.putFile p :: open_put_trace rest

/-- The loop of post_files, lines 193-207, with the running success flag:
open the file (OSError aborts the whole call), PUT it, and clear the flag
when the status is not 201.  No close event is ever emitted, matching the
bare open(file_path, "rb") of line 196. -/
def post_files_go (env : Env) (success : Bool) :
    List String → Except PyError Bool × List Event
  | [] => (Except.ok success, [])
  | p :: rest =>
    if env.openOk p then
      let step := post_files_go env
        (if env.putStatus p ≠ 201 then false else success) rest
      (step.1, Event.fopen p :: Event.putFile p :: step.2)
    else
      (Except.error (PyError.osError p), [])

/-- post_files, lines 174-208: iterate the paths with success initially
True and return the aggregate flag. -/
def post_files (env : Env) (dataset_guid : String) (file_paths : List String) :
    Except PyError Bool × List Event :=
  post_files_go env true file_paths

/-- upload_dataset_from_tem, lines 42-65: build the dataset label by
concatenating path_dict["pdb_keyword"] and path_dict["micrograph_keyword"],
resolve the molecule node, create the dataset node under it tagged with the
sim-dict values, and upload output_path_dict["h5_file"] into it. -/
def upload_dataset_from_tem (env : Env) (s : Session) (tem_sim : TEMSimulator) :
    Except PyError Bool × List Event :=
  match pyLookup tem_sim.path_dict "pdb_keyword" with
  | none => (Except.error (PyError.keyError "pdb_keyword"), [])
  | some pdb_keyword =>
    match pyLookup tem_sim.path_dict "micrograph_keyword" with
    | none => (Except.error (PyError.keyError "micrograph_keyword"), [])
    | some micrograph_keyword =>
      let dataset_label := pdb_keyword ++ micrograph_keyword
      let molecule_label := pdb_keyword
      match get_molecule_guid env s molecule_label with
      | (Except.error e, tr) => (Except.error e, tr)
      | (Except.ok molecule_guid, tr1) =>
        match post_child_node env s molecule_guid dataset_label
            (some (generate_tags_from_tem tem_sim)) with
        | (Except.error e, tr2) => (Except.error e, tr1 ++ tr2)
        | (Except.ok dataset_guid, tr2) =>
          match pyLookup tem_sim.output_path_dict "h5_file" with
          | none => (Except.error (PyError.keyError "h5_file"), tr1 ++ tr2)
          | some h5_file =>
            let step := post_files env dataset_guid [h5_file]
            (step.1, tr1 ++ tr2 ++ step.2)

/-- The id of the last child carrying a given title, in listing order; this
is the spec's description of the last-write-wins mapping, stated directly
for comparison with buildMoleculeDict. -/
def lastChildId : List Child → String → Option String
  | [], _ => none
  | c :: cs, t =>
    match lastChildId cs t with
    | some i => some i
    | none => if c.title = t then some c.id else none

/-! Concrete environments used to instantiate the theorems. -/

/-- A session against the default data node. -/
def sampleSession : Session :=
  { token := "token123", data_node_guid := "24htr" }

/-- A healthy remote: the listing succeeds and shows a duplicate title
("X" twice), creations answer 201 with a GUID derived from the title, the
file "missing.h5" cannot be opened, and the PUT for "bad.h5" answers 404. -/
def sampleEnv : Env where
  livenessReachable := true
  livenessStatus := 200
  livenessBody := ""
  listStatus := 200
  listBody := ""
  listChildren :=
    [{ title := "X", id := "id1" }, { title := "Y", id := "idY" },
     { title := "X", id := "id2" }, { title := "1ABC", id := "mol1" }]
  createResp := fun _ attrs =>
    { status := 201, body := "", dataId := "guid-" ++ attrs.title }
  openOk := fun p => p != "missing.h5"
  putStatus := fun p => if p = "bad.h5" then 404 else 201

/-- A remote whose every response carries status 304 (not modified):
a non-2xx status that raise_for_status does not raise on. -/
def env304 : Env where
  livenessReachable := true
  livenessStatus := 304
  livenessBody := ""
  listStatus := 304
  listBody := ""
  listChildren := [{ title := "X", id := "id1" }]
  createResp := fun _ _ => { status := 304, body := "", dataId := "newid" }
  openOk := fun _ => true
  putStatus := fun _ => 201

/-- A remote that rejects the credential on the liveness check. -/
def env401 : Env :=
  { env304 with livenessStatus := 401, livenessBody := "unauthorized" }

/-- A remote that cannot be reached at all. -/
def envUnreachable : Env :=
  { env304 with livenessReachable := false }

/-- A remote on which listing fails with a 500 and creation with a 403. -/
def envFail : Env :=
  { env304 with
    listStatus := 500, listBody := "server boom",
    createResp := fun _ _ =>
      { status := 403, body := "forbidden", dataId := "unused" } }

/-- A simulator record with molecule key "1ABC", micrograph key "series7",
parameters voltage=300 and dose=50, and one h5 output file. -/
def sampleTem : TEMSimulator where
  path_dict := [("pdb_keyword", "1ABC"), ("micrograph_keyword", "series7")]
  sim_dict := [("voltage", "300"), ("dose", "50")]
  output_path_dict := [("h5_file", "out.h5")]

/-! Behaviour of raise_for_status. -/

/-- raise_for_status raises on every status in [400, 600), and the raised
error carries both the status code and the response body. -/
theorem raise_for_status_error (resp : HttpResponse)
    (h4 : 400 ≤ resp.status) (h6 : resp.status < 600) :
    raise_for_status resp =
      Except.error (PyError.httpError resp.status resp.body) := by
  unfold raise_for_status
  split
  · rfl
  · split
    · rfl
    · next h1 h2 => exact absurd (by omega) h2

/-- raise_for_status is silent on every status below 400. -/
theorem raise_for_status_ok (resp : HttpResponse) (h : resp.status < 400) :
    raise_for_status resp = Except.ok () := by
  unfold raise_for_status
  rw [if_neg (by omega), if_neg (by omega)]

/-! The Python-dict model: lookup after insert, and last-write-wins. -/

/-- Looking up the key just inserted yields the value just inserted. -/
theorem pyLookup_dictInsert_self (d : PyDict) (k v : String) :
    pyLookup (dictInsert d k v) k = some v := by
  unfold dictInsert
  by_cases hany : List.any d (fun p => p.1 = k)
  · rw [if_pos hany]
    induction d with
    | nil => simp at hany
    | cons p d ih =>
      by_cases hp : p.1 = k
      · simp [pyLookup, hp]
      · have htail : List.any d (fun p => p.1 = k) := by
          simpa [hp] using hany
        simpa [pyLookup, hp] using ih htail
  · rw [if_neg hany]
    induction d with
    | nil => simp [pyLookup]
    | cons p d ih =>
      have hp : ¬p.1 = k := by
        intro h
        exact hany (by simp [h])
      have htail : ¬List.any d (fun p => p.1 = k) := by
        intro h
        exact hany (by simp [h])
      simpa [pyLookup, hp] using ih htail

/-- Inserting one key leaves the other keys' lookups unchanged. -/
theorem pyLookup_dictInsert_ne (d : PyDict) (k v t : String) (h : t ≠ k) :
    pyLookup (dictInsert d k v) t = pyLookup d t := by
  unfold dictInsert
  by_cases hany : List.any d (fun p => p.1 = k)
  · rw [if_pos hany]
    clear hany
    induction d with
    | nil => simp
    | cons p d ih =>
      by_cases hp : p.1 = k
      · have hk : ¬k = t := fun hkt => h hkt.symm
        have hpt : ¬p.1 = t := by rw [hp]; exact hk
        simpa [pyLookup, hp, hk, hpt] using ih
      · by_cases hpt : p.1 = t
        · simp [pyLookup, hp, hpt, h]
        · simpa [pyLookup, hp, hpt] using ih
  · rw [if_neg hany]
    clear hany
    induction d with
    | nil =>
      have hk : ¬k = t := fun hkt => h hkt.symm
      simp [pyLookup, hk]
    | cons p d ih =>
      by_cases hpt : p.1 = t
      · simp [pyLookup, hpt]
      · simpa [pyLookup, hpt] using ih

/-- Folding dictInsert over a child list: the lookup sees the last child
with the sought title when there is one, and the prior dict otherwise. -/
theorem lookup_foldl_dictInsert (cs : List Child) (d : PyDict) (t : String) :
    pyLookup (List.foldl (fun acc c => dictInsert acc c.title c.id) d cs) t =
      match lastChildId cs t with
      | some i => some i
      | none => pyLookup d t := by
  induction cs generalizing d with
  | nil => simp [lastChildId]
  | cons c cs ih =>
    rw [List.foldl_cons, ih]
    cases hl : lastChildId cs t with
    | some i => simp [lastChildId, hl]
    | none =>
      by_cases hc : c.title = t
      · simp [lastChildId, hl, hc, hc ▸ pyLookup_dictInsert_self d c.title c.id]
      · have ht : t ≠ c.title := fun hct => hc hct.symm
        simp [lastChildId, hl, hc, pyLookup_dictInsert_ne d c.title c.id t ht]

/-- The dict comprehension of get_existing_molecules realizes exactly the
last-write-wins mapping: each title maps to the id of the last child that
carries it in listing order. -/
theorem pyLookup_buildMoleculeDict (cs : List Child) (t : String) :
    pyLookup (buildMoleculeDict cs) t = lastChildId cs t := by
  unfold buildMoleculeDict
  rw [lookup_foldl_dictInsert]
  cases lastChildId cs t <;> simp [pyLookup]

/-! The node resolver. -/

/-- A successful listing hands get_molecule_guid the comprehension dict. -/
theorem get_existing_molecules_ok (env : Env) (s : Session)
    (hlist : env.listStatus < 400) :
    get_existing_molecules env s = Except.ok (buildMoleculeDict env.listChildren) := by
  unfold get_existing_molecules
  rw [raise_for_status_ok _ hlist]

/-- A listing with an error status propagates the HTTPError, which carries
the status and the body. -/
theorem get_existing_molecules_error (env : Env) (s : Session)
    (h4 : 400 ≤ env.listStatus) (h6 : env.listStatus < 600) :
    get_existing_molecules env s =
      Except.error (PyError.httpError env.listStatus env.listBody) := by
  unfold get_existing_molecules
  rw [raise_for_status_error _ h4 h6]

/-- post_child_node on a successful creation status returns the id parsed
from the response, and its trace is the single POST it issued. -/
theorem post_child_node_ok (env : Env) (s : Session) (parent_guid title : String)
    (tags : Option (List String))
    (h : (env.createResp parent_guid (node_attributes title tags)).status < 400) :
    post_child_node env s parent_guid title tags =
      (Except.ok (env.createResp parent_guid (node_attributes title tags)).dataId,
       [Event.createNode parent_guid (node_attributes title tags)]) := by
  unfold post_child_node
  dsimp only
  rw [raise_for_status_ok _ h]

/-- post_child_node on an error creation status raises an HTTPError
carrying the status and body of the creation response. -/
theorem post_child_node_error (env : Env) (s : Session) (parent_guid title : String)
    (tags : Option (List String))
    (h4 : 400 ≤ (env.createResp parent_guid (node_attributes title tags)).status)
    (h6 : (env.createResp parent_guid (node_attributes title tags)).status < 600) :
    post_child_node env s parent_guid title tags =
      (Except.error (PyError.httpError
          (env.createResp parent_guid (node_attributes title tags)).status
          (env.createResp parent_guid (node_attributes title tags)).body),
       [Event.createNode parent_guid (node_attributes title tags)]) := by
  unfold post_child_node
  dsimp only
  rw [raise_for_status_error _ h4 h6]

/-- Whatever the creation status, post_child_node issues exactly one POST. -/
theorem post_child_node_trace (env : Env) (s : Session) (parent_guid title : String)
    (tags : Option (List String)) :
    (post_child_node env s parent_guid title tags).2 =
      [Event.createNode parent_guid (node_attributes title tags)] := by
  unfold post_child_node
  dsimp only
  split <;> rfl

/-- The lookup path of get_molecule_guid: a label present in the dict is
answered from the dict with no creation call. -/
theorem get_molecule_guid_found (env : Env) (s : Session) (label guid : String)
    (hlist : env.listStatus < 400)
    (hfound : pyLookup (buildMoleculeDict env.listChildren) label = some guid) :
    get_molecule_guid env s label = (Except.ok guid, []) := by
  unfold get_molecule_guid
  rw [get_existing_molecules_ok env s hlist]
  simp [hfound]

/-- The creation path of get_molecule_guid: a label absent from the dict is
delegated to post_child_node under the data node, with no tags. -/
theorem get_molecule_guid_absent (env : Env) (s : Session) (label : String)
    (hlist : env.listStatus < 400)
    (habsent : pyLookup (buildMoleculeDict env.listChildren) label = none) :
    get_molecule_guid env s label = post_child_node env s s.data_node_guid label := by
  unfold get_molecule_guid
  rw [get_existing_molecules_ok env s hlist]
  simp [habsent]

/-! Claims about the node resolver. -/

/-- Claim C1: for every label already present among the children of the
configured root node (a key of the title-to-id mapping built from the
listing), get_molecule_guid returns the existing child's id and issues
zero node-creation calls. -/
theorem claim1_existing_label_lookup (env : Env) (s : Session) (label guid : String)
    (hlist : env.listStatus < 400)
    (hfound : pyLookup (buildMoleculeDict env.listChildren) label = some guid) :
    get_molecule_guid env s label = (Except.ok guid, []) :=
  get_molecule_guid_found env s label guid hlist hfound

/-- Witness for claim C1: "Y" is listed with id "idY"; resolving it answers
"idY" with an empty trace. -/
theorem claim1_witness :
    get_molecule_guid sampleEnv sampleSession "Y" = (Except.ok "idY", []) :=
  claim1_existing_label_lookup sampleEnv sampleSession "Y" "idY"
    (by decide) (by decide)

/-- Claim C2: for every label absent among the children of the configured
root node, get_molecule_guid issues exactly one node-creation call, with
that label as title and no tags, under the data node, and returns the id
produced by that creation call. -/
theorem claim2_absent_label_creates (env : Env) (s : Session) (label : String)
    (hlist : env.listStatus < 400)
    (habsent : pyLookup (buildMoleculeDict env.listChildren) label = none)
    (hcreate : (env.createResp s.data_node_guid (node_attributes label none)).status < 400) :
    get_molecule_guid env s label =
      (Except.ok (env.createResp s.data_node_guid (node_attributes label none)).dataId,
       [Event.createNode s.data_node_guid (node_attributes label none)]) := by
  rw [get_molecule_guid_absent env s label hlist habsent]
  exact post_child_node_ok env s s.data_node_guid label none hcreate

/-- Witness for claim C2: "Z" is not listed; resolving it issues the single
POST for title "Z" without tags and returns the id the remote minted. -/
theorem claim2_witness :
    get_molecule_guid sampleEnv sampleSession "Z" =
      (Except.ok "guid-Z", [Event.createNode "24htr" (node_attributes "Z" none)]) :=
  claim2_absent_label_creates sampleEnv sampleSession "Z"
    (by decide) (by decide) (by decide)

/-- Claim C8: with duplicate titles among the listed children, the mapping
get_molecule_guid builds sends each duplicated title to the id of the last
child carrying it in listing order, and that id is what the resolver
returns for that label. -/
theorem claim8_duplicate_titles_last_wins (env : Env) (s : Session) (t guid : String)
    (hlist : env.listStatus < 400)
    (hlast : lastChildId env.listChildren t = some guid) :
    pyLookup (buildMoleculeDict env.listChildren) t = some guid ∧
    get_molecule_guid env s t = (Except.ok guid, []) := by
  have hmap : pyLookup (buildMoleculeDict env.listChildren) t = some guid := by
    rw [pyLookup_buildMoleculeDict]
    exact hlast
  exact ⟨hmap, get_molecule_guid_found env s t guid hlist hmap⟩

/-- Witness for claim C8: "X" is listed twice, first with id "id1" and last
with id "id2"; the mapping and the resolver both answer "id2". -/
theorem claim8_witness :
    pyLookup (buildMoleculeDict sampleEnv.listChildren) "X" = some "id2" ∧
    get_molecule_guid sampleEnv sampleSession "X" = (Except.ok "id2", []) :=
  claim8_duplicate_titles_last_wins sampleEnv sampleSession "X" "id2"
    (by decide) (by decide)

/-! Claims about the upload loop. -/

/-- Every path of the list gets a PUT event in the open/put trace. -/
theorem putFile_mem_open_put_trace (paths : List String) (p : String)
    (h : p ∈ paths) : Event.putFile p ∈ open_put_trace paths := by
  induction paths with
  | nil => cases h
  | cons q rest ih =>
    rcases List.mem_cons.mp h with hq | hrest
    · subst hq
      simp [open_put_trace]
    · simp [open_put_trace, ih hrest]

/-- The loop of post_files on fully openable input: it visits every path,
folds the running flag with (status = 201) per file, and emits an open and
a PUT per path in order. -/
theorem post_files_go_all_open (env : Env) (paths : List String) (b : Bool)
    (h : ∀ p ∈ paths, env.openOk p = true) :
    post_files_go env b paths =
      (Except.ok (b && List.all paths (fun p => env.putStatus p == 201)),
       open_put_trace paths) := by
  induction paths generalizing b with
  | nil => simp [post_files_go, open_put_trace]
  | cons p rest ih =>
    have hp : env.openOk p = true := h p (List.mem_cons_self p rest)
    have hrest : ∀ q ∈ rest, env.openOk q = true :=
      fun q hq => h q (List.mem_cons_of_mem p hq)
    rw [post_files_go, if_pos hp, ih _ hrest]
    simp only [open_put_trace, List.all_cons, Prod.mk.injEq]
    constructor
    · by_cases hs : env.putStatus p = 201
      · simp [hs]
      · simp [hs, Nat.beq_eq_true_eq]
    · trivial

/-- Claim C3: post_files returns true iff every per-file PUT status equals
the literal 201, any other status (other 2xx included) marking that file
failed; no short-circuit occurs: every file in the list is still attempted
(its PUT event is in the trace), and the aggregate is the AND over all
files. -/
theorem claim3_upload_all_conjunction (env : Env) (dataset_guid : String)
    (file_paths : List String)
    (h : ∀ p ∈ file_paths, env.openOk p = true) :
    post_files env dataset_guid file_paths =
      (Except.ok (List.all file_paths (fun p => env.putStatus p == 201)),
       open_put_trace file_paths) ∧
    ∀ p ∈ file_paths, Event.putFile p ∈ (post_files env dataset_guid file_paths).2 := by
  have hrun : post_files env dataset_guid file_paths =
      (Except.ok (List.all file_paths (fun p => env.putStatus p == 201)),
       open_put_trace file_paths) := by
    unfold post_files
    simpa using post_files_go_all_open env file_paths true h
  refine ⟨hrun, fun p hp => ?_⟩
  rw [hrun]
  exact putFile_mem_open_put_trace file_paths p hp

/-- Witness for claim C3: statuses [201, 404] give aggregate false, and the
second file is still attempted (its PUT event is in the trace). -/
theorem claim3_witness :
    post_files sampleEnv "dset" ["good.h5", "bad.h5"] =
      (Except.ok false,
       [Event.fopen "good.h5", Event.putFile "good.h5",
        Event.fopen "bad.h5", Event.putFile "bad.h5"]) ∧
    Event.putFile "bad.h5" ∈ (post_files sampleEnv "dset" ["good.h5", "bad.h5"]).2 := by
  have h := claim3_upload_all_conjunction sampleEnv "dset" ["good.h5", "bad.h5"]
    (by decide)
  exact ⟨h.1, h.2 "bad.h5" (by decide)⟩

/-- No run of the loop ever emits a close event. -/
theorem post_files_go_no_close (env : Env) (b : Bool) (paths : List String) :
    List.countP Event.isClose (post_files_go env b paths).2 = 0 := by
  induction paths generalizing b with
  | nil => simp [post_files_go]
  | cons p rest ih =>
    by_cases hp : env.openOk p
    · rw [post_files_go, if_pos hp]
      simp [List.countP_cons, Event.isClose, ih]
    · rw [post_files_go, if_neg hp]
      simp

/-- Claim C9 is false of the code: post_files opens each file with a bare
open(file_path, "rb") and never closes it — no run of post_files emits a
single close event, while a run on an openable file does emit its open
event.  The handles are therefore not released before the loop proceeds. -/
theorem claim9_handles_never_closed :
    (∀ (env : Env) (dataset_guid : String) (file_paths : List String),
       List.countP Event.isClose (post_files env dataset_guid file_paths).2 = 0) ∧
    (post_files sampleEnv "dset" ["good.h5"]).2 =
      [Event.fopen "good.h5", Event.putFile "good.h5"] := by
  constructor
  · intro env dataset_guid file_paths
    exact post_files_go_no_close env true file_paths
  · rfl

/-- The loop of post_files aborts with OSError at the first unopenable
path: the paths before it are opened and PUT, nothing after is touched. -/
theorem post_files_go_open_failure (env : Env) (bad : String)
    (pre rest_paths : List String) (b : Bool)
    (hpre : ∀ p ∈ pre, env.openOk p = true)
    (hbad : env.openOk bad = false) :
    post_files_go env b (pre ++ bad :: rest_paths) =
      (Except.error (PyError.osError bad), open_put_trace pre) := by
  induction pre generalizing b with
  | nil =>
    rw [List.nil_append, post_files_go, if_neg (by simp [hbad])]
    rfl
  | cons p pre ih =>
    have hp : env.openOk p = true := hpre p (List.mem_cons_self p pre)
    have hpre2 : ∀ q ∈ pre, env.openOk q = true :=
      fun q hq => hpre q (List.mem_cons_of_mem p hq)
    rw [List.cons_append, post_files_go, if_pos hp, ih _ hpre2]
    rfl

/-- Claim C10: when some path of the list cannot be opened, post_files
raises (the open call fails) instead of recording a per-file failure and
returning a boolean; the files before it are uploaded as usual, the failing
file and every file after it are not attempted. -/
theorem claim10_unopenable_path_raises (env : Env) (dataset_guid bad : String)
    (pre rest_paths : List String)
    (hpre : ∀ p ∈ pre, env.openOk p = true)
    (hbad : env.openOk bad = false) :
    post_files env dataset_guid (pre ++ bad :: rest_paths) =
      (Except.error (PyError.osError bad), open_put_trace pre) :=
  post_files_go_open_failure env bad pre rest_paths true hpre hbad

/-- Witness for claim C10: with "missing.h5" unopenable between two good
paths, post_files raises OSError after handling only the first path. -/
theorem claim10_witness :
    post_files sampleEnv "dset" ["good.h5", "missing.h5", "other.h5"] =
      (Except.error (PyError.osError "missing.h5"),
       [Event.fopen "good.h5", Event.putFile "good.h5"]) := by
  have h := claim10_unopenable_path_raises sampleEnv "dset" "missing.h5"
    ["good.h5"] ["other.h5"] (by decide) (by decide)
  exact h

/-! Claims about the hierarchy builder. -/

/-- Claim C4: the dataset label upload_dataset_from_tem hands to the
dataset-node creation call is exactly path_dict["pdb_keyword"] concatenated
with path_dict["micrograph_keyword"], in that order, with no separator:
under any non-empty values of the two keys, the first event the run emits
after resolving the existing molecule node is the creation of the dataset
node under it, titled with that concatenation. -/
theorem claim4_dataset_label_is_concatenation (env : Env) (s : Session)
    (tem_sim : TEMSimulator) (pdb micro molecule_guid : String)
    (hpdb : pyLookup tem_sim.path_dict "pdb_keyword" = some pdb)
    (hmicro : pyLookup tem_sim.path_dict "micrograph_keyword" = some micro)
    (hpdb_ne : pdb ≠ "") (hmicro_ne : micro ≠ "")
    (hlist : env.listStatus < 400)
    (hfound : pyLookup (buildMoleculeDict env.listChildren) pdb = some molecule_guid) :
    ∃ rest, (upload_dataset_from_tem env s tem_sim).2 =
      Event.createNode molecule_guid
          (node_attributes (pdb ++ micro) (some (generate_tags_from_tem tem_sim)))
        :: rest := by
  unfold upload_dataset_from_tem
  simp only [hpdb, hmicro, get_molecule_guid_found env s pdb molecule_guid hlist hfound]
  have htr := post_child_node_trace env s molecule_guid (pdb ++ micro)
    (some (generate_tags_from_tem tem_sim))
  rcases hpc : post_child_node env s molecule_guid (pdb ++ micro)
    (some (generate_tags_from_tem tem_sim)) with ⟨r2, tr2⟩
  rw [hpc] at htr
  have htr2 : tr2 = [Event.createNode molecule_guid
      (node_attributes (pdb ++ micro) (some (generate_tags_from_tem tem_sim)))] := htr
  subst htr2
  cases r2 with
  | error e => exact ⟨[], by simp⟩
  | ok dataset_guid =>
    cases hh5 : pyLookup tem_sim.output_path_dict "h5_file" with
    | none => exact ⟨[], by simp⟩
    | some h5 => exact ⟨(post_files env dataset_guid [h5]).2, by simp⟩

/-- Witness for claim C4: molecule key "1ABC" and micrograph key "series7"
give dataset label "1ABCseries7", created under the listed molecule node
"mol1" with the tags drawn from the sim parameters. -/
theorem claim4_witness :
    ∃ rest, (upload_dataset_from_tem sampleEnv sampleSession sampleTem).2 =
      Event.createNode "mol1" (node_attributes "1ABCseries7" (some ["300", "50"]))
        :: rest := by
  have h := claim4_dataset_label_is_concatenation sampleEnv sampleSession sampleTem
    "1ABC" "series7" "mol1" (by decide) (by decide) (by decide) (by decide)
    (by decide) (by decide)
  exact h

/-- Claim C5: generate_tags_from_tem returns exactly the sequence of values
(never the keys) of the sim-parameter mapping, in the mapping's insertion
order: the tag list has the same length as the mapping and its i-th entry
is the value of the mapping's i-th item. -/
theorem claim5_tags_are_ordered_values (tem_wrapper : TEMSimulator) :
    (generate_tags_from_tem tem_wrapper).length = tem_wrapper.sim_dict.length ∧
    ∀ (i : Nat) (hi : i < (generate_tags_from_tem tem_wrapper).length)
      (hd : i < tem_wrapper.sim_dict.length),
      (generate_tags_from_tem tem_wrapper).get ⟨i, hi⟩ =
        (tem_wrapper.sim_dict.get ⟨i, hd⟩).2 := by
  constructor
  · simp [generate_tags_from_tem]
  · intro i hi hd
    simp [generate_tags_from_tem]

/-- Witness for claim C5: the mapping voltage=300, dose=50 gives the tags
["300", "50"], values only, in insertion order. -/
theorem claim5_witness :
    (generate_tags_from_tem sampleTem).length = sampleTem.sim_dict.length ∧
    (generate_tags_from_tem sampleTem).get ⟨0, by decide⟩ = "300" ∧
    (generate_tags_from_tem sampleTem).get ⟨1, by decide⟩ = "50" := by
  refine ⟨(claim5_tags_are_ordered_values sampleTem).1, ?_, ?_⟩
  · exact ((claim5_tags_are_ordered_values sampleTem).2 0 (by decide) (by decide)).trans
      (by rfl)
  · exact ((claim5_tags_are_ordered_values sampleTem).2 1 (by decide) (by decide)).trans
      (by rfl)

/-! Claims about session initialization and the error contract. -/

/-- Claim C6 counterexample: a liveness status of 304 is not a 2xx status,
yet TEMUpload.init completes and returns the session instead of raising —
raise_for_status only raises on 4xx/5xx, so "whenever the liveness check
yields a non-2xx status, initialization raises before completing" is false
at status 304. -/
theorem claim6_counterexample :
    ¬(200 ≤ env304.livenessStatus ∧ env304.livenessStatus < 300) ∧
    TEMUpload.init env304 "token123" "24htr" =
      Except.ok { token := "token123", data_node_guid := "24htr" } := by
  exact ⟨by decide, rfl⟩

/-- Claim C6 as amended: initialization performs the liveness GET and fails
closed — with ConnectionError when the service is unreachable, and with an
HTTPError carrying the status and body whenever the liveness check yields a
4xx or 5xx status (a rejected credential included); in either case no
session value is produced, so no node or upload call can be issued on it. -/
theorem claim6_amended_init_fails_closed (env : Env) (token guid : String) :
    (env.livenessReachable = false →
      TEMUpload.init env token guid = Except.error PyError.connectionError) ∧
    (env.livenessReachable = true →
      400 ≤ env.livenessStatus → env.livenessStatus < 600 →
      TEMUpload.init env token guid =
        Except.error (PyError.httpError env.livenessStatus env.livenessBody)) := by
  constructor
  · intro h
    simp [TEMUpload.init, h]
  · intro hr h4 h6
    unfold TEMUpload.init
    rw [if_pos hr,
      raise_for_status_error { status := env.livenessStatus, body := env.livenessBody } h4 h6]

/-- Witness for the amended claim C6: an unreachable service raises
ConnectionError, and a 401 on the liveness check raises the HTTPError
carrying 401 and the response body. -/
theorem claim6_witness :
    TEMUpload.init envUnreachable "token123" "24htr" =
      Except.error PyError.connectionError ∧
    TEMUpload.init env401 "token123" "24htr" =
      Except.error (PyError.httpError 401 "unauthorized") := by
  constructor
  · exact (claim6_amended_init_fails_closed envUnreachable "token123" "24htr").1 rfl
  · exact (claim6_amended_init_fails_closed env401 "token123" "24htr").2 rfl
      (by decide) (by decide)

/-- Claim C7 counterexample: 304 is not a success (2xx) status, yet both
get_existing_molecules and post_child_node complete without raising on it —
raise_for_status only raises on 4xx/5xx, so "fail with RemoteRequestError
on any non-success HTTP status" is false at status 304. -/
theorem claim7_counterexample :
    ¬(200 ≤ env304.listStatus ∧ env304.listStatus < 300) ∧
    get_existing_molecules env304 sampleSession = Except.ok [("X", "id1")] ∧
    (post_child_node env304 sampleSession "parent" "title" none).1 =
      Except.ok "newid" := by
  exact ⟨by decide, rfl, rfl⟩

/-- Claim C7 as amended: get_existing_molecules and post_child_node fail
exactly on the statuses raise_for_status rejects, the 4xx and 5xx ranges,
and the raised error carries the HTTP status code and the response body;
on a success (2xx, hence below 400) status neither operation raises. -/
theorem claim7_amended_http_errors (env : Env) (s : Session)
    (parent_guid title : String) (tags : Option (List String)) :
    (400 ≤ env.listStatus → env.listStatus < 600 →
      get_existing_molecules env s =
        Except.error (PyError.httpError env.listStatus env.listBody)) ∧
    (env.listStatus < 400 →
      get_existing_molecules env s =
        Except.ok (buildMoleculeDict env.listChildren)) ∧
    (400 ≤ (env.createResp parent_guid (node_attributes title tags)).status →
      (env.createResp parent_guid (node_attributes title tags)).status < 600 →
      (post_child_node env s parent_guid title tags).1 =
        Except.error (PyError.httpError
          (env.createResp parent_guid (node_attributes title tags)).status
          (env.createResp parent_guid (node_attributes title tags)).body)) ∧
    ((env.createResp parent_guid (node_attributes title tags)).status < 400 →
      (post_child_node env s parent_guid title tags).1 =
        Except.ok (env.createResp parent_guid (node_attributes title tags)).dataId) := by
  refine ⟨?_, ?_, ?_, ?_⟩
  · intro h4 h6
    exact get_existing_molecules_error env s h4 h6
  · intro h
    exact get_existing_molecules_ok env s h
  · intro h4 h6
    rw [post_child_node_error env s parent_guid title tags h4 h6]
  · intro h
    rw [post_child_node_ok env s parent_guid title tags h]

/-- Witness for the amended claim C7: a 500 on listing and a 403 on
creation raise errors carrying those statuses and bodies, while on the
healthy remote both operations answer without raising. -/
theorem claim7_witness :
    get_existing_molecules envFail sampleSession =
      Except.error (PyError.httpError 500 "server boom") ∧
    (post_child_node envFail sampleSession "p" "t" none).1 =
      Except.error (PyError.httpError 403 "forbidden") ∧
    get_existing_molecules sampleEnv sampleSession =
      Except.ok (buildMoleculeDict sampleEnv.listChildren) ∧
    (post_child_node sampleEnv sampleSession "p" "t" none).1 =
      Except.ok "guid-t" := by
  refine ⟨?_, ?_, ?_, ?_⟩
  · exact (claim7_amended_http_errors envFail sampleSession "p" "t" none).1
      (by decide) (by decide)
  · exact (claim7_amended_http_errors envFail sampleSession "p" "t" none).2.2.1
      (by decide) (by decide)
  · exact (claim7_amended_http_errors sampleEnv sampleSession "p" "t" none).2.1
      (by decide)
  · exact (claim7_amended_http_errors sampleEnv sampleSession "p" "t" none).2.2.2
      (by decide)
